import Mathlib

/-!
# Verification of the OrionWspr self-calibration engine (`OrionCalibration.cpp`)

Shallow embedding of the calibration engine of `src/OrionCalibration.cpp`:

* the frequency computation `measured_rx_freq = (timer_counter1 + 65536 * overflowCounter) * 10ULL`
  including the Atmega328p (avr-gcc) integer conversions: `timer_counter1` is a
  16-bit signed `int` receiving the 16-bit hardware counter `TCNT1`, and the
  final multiplication is carried out in `uint64_t` arithmetic;
* the Huff-n-Puff correction step applied to `cal_factor` (lines 275–301);
* the 24-iteration loop of `do_calibration`, with its observable effects
  (software-error records, log records, synthesizer-driver calls);
* the interrupt-driven PPS gate: the two interrupt-handler variants
  (`PPSinterruptISR` for external interrupts on D2/D3, `ISR(PCINT1_vect)` for
  pin-change interrupts), the Timer1 overflow tally, and the arming sequence.

Machine integers are modelled as `Nat`/`Int` with explicit reductions where the
width matters: `TCNT1` and the `unsigned int` counters are 16-bit, `timer_counter1`
is a 16-bit signed `int`, and `measured_rx_freq` is `uint64_t`.  `cal_factor`
(`int32_t`) and `calibration_step` (`unsigned long`) are modelled as unbounded
`Int`/`Nat`: the correction factor stays far from the 32-bit boundary in every
behaviour the claims quantify over, and no claim concerns its wraparound.
-/

namespace Orion

/-! ## Machine-integer conversions -/

/-- Width of the Timer1 hardware counter: 16 bits, so 65536 values. -/
def counterWidth : Nat := 65536

/-- Conversion of a 16-bit unsigned value (`TCNT1`) into a 16-bit signed `int`,
as performed by the avr-gcc assignment `timer_counter1 = TCNT1;` at line 265
(`int` is 16 bits on the Atmega328p): values `≥ 32768` wrap to negatives. -/
def toInt16 (n : Nat) : Int :=
  if n < 32768 then (n : Int) else (n : Int) - 65536

/-- Reduction of a signed 64-bit intermediate into the `uint64_t` result of
`(...) * 10ULL`: conversion to `uint64_t` is reduction modulo `2^64`. -/
def toUInt64Nat (z : Int) : Nat :=
  (z % (2 ^ 64 : Int)).toNat

/-! ## Frequency computation (line 269)

`measured_rx_freq = (timer_counter1 + (65536 * (int64_t)overflowCounter)) * 10ULL;`

The sum is computed in `int64_t` (no overflow there: `|timer_counter1| ≤ 32768`
and `overflowCounter < 65536`), then converted to `uint64_t` by the `* 10ULL`
multiplication, which is carried out modulo `2^64`. -/

/-- The measured frequency as computed by line 269, as a function of the raw
16-bit hardware count `rawCount` (the value of `TCNT1`) and the overflow tally
`ovf` (the value of `overflowCounter`). -/
def measured_rx_freq (rawCount ovf : Nat) : Nat :=
  toUInt64Nat ((toInt16 rawCount + 65536 * (ovf : Int)) * 10)

/-- The frequency formula as the specification states it:
`(raw_count + width * overflow_count) * scale` with `width = 65536`, `scale = 10`. -/
def specMeasuredFreq (rawCount ovf : Nat) : Nat :=
  (rawCount + 65536 * ovf) * 10

/-! ## The Huff-n-Puff correction step (lines 279–283)

```c
if (measured_rx_freq < target_freq)
  cal_factor = cal_factor - calibration_step;
if (measured_rx_freq > target_freq)
  cal_factor = cal_factor + calibration_step;
```
Both comparisons are `uint64_t` comparisons on `measured_rx_freq` and
`target_freq`, modelled as `Nat` comparisons. -/

/-- One Huff-n-Puff adjustment of the correction factor. -/
def huffPuff (target_freq calibration_step measured : Nat) (cal_factor : Int) : Int :=
  let c1 : Int := if measured < target_freq then cal_factor - calibration_step else cal_factor
  if measured > target_freq then c1 + calibration_step else c1

/-! ## Observable effects of the loop body -/

/-- Observable external calls made by the body of `do_calibration`. -/
inductive Event where
  /-- Call `swerr(code, data)` — software-error record (line 288). -/
  | swerr (code data : Nat)
  /-- Call `log_debug_Timer1_info(i, overflowCounter, timer_counter1)` (line 291). -/
  | logDebug (i ovf : Nat) (timerCounter1 : Int)
  /-- Call `log_calibration(measured_rx_freq, old_cal_factor, cal_factor)` (line 294). -/
  | logCalibration (measured : Nat) (oldCal newCal : Int)
  /-- Call `si5351bx_set_correction(cal_factor)` (line 296). -/
  | setCorrection (cal : Int)
  /-- Call `si5351bx_setfreq(clk, freq)` (lines 297, 310). -/
  | setFreq (clk freq : Nat)
  /-- Call `si5351bx_enable_clk(clk, SI5351_CLK_OFF)` (line 307). -/
  | enableClkOff (clk : Nat)
  /-- Call `delay(ms)` (line 299). -/
  | delay (ms : Nat)
  deriving DecidableEq, Repr

/-- Channel number of the calibration clock (`SI5351A_CAL_CLK_NUM`, board config). -/
def CAL_CLK_NUM : Nat := 2

/-- Channel number of the park clock (`SI5351A_PARK_CLK_NUM`, board config). -/
def PARK_CLK_NUM : Nat := 1

/-- Whether an event is a push to the frequency-synthesizer driver. -/
def Event.isSynthCall : Event → Bool
  | .setCorrection _ => true
  | .setFreq _ _ => true
  | .enableClkOff _ => true
  | _ => false

/-- Whether an event is a log record (debug or calibration log). -/
def Event.isLogRecord : Event → Bool
  | .logDebug _ _ _ => true
  | .logCalibration _ _ _ => true
  | _ => false

/-! ## One iteration of the `do_calibration` loop (lines 261–301)

A window sample is the pair `(rawCount, ovf)` snapshotted after the gate closes.
`CalState` carries the two persistent correction variables. -/

/-- Persistent correction state: `cal_factor` and `old_cal_factor`. -/
structure CalState where
  cal_factor : Int
  old_cal_factor : Int
  deriving DecidableEq, Repr

/-- The body of one loop iteration of `do_calibration`, given the iteration
index `i` and the window sample, lines 263–301 of the source: compute
`measured_rx_freq`, save `old_cal_factor`, and for `i ≠ 0` apply the
Huff-n-Puff step (or `swerr(8,0)` when the measurement is zero), emit the two
log records, push the correction and frequency to the synthesizer, and delay. -/
def calibrationIteration (target_freq calibration_step : Nat) (i : Nat)
    (rawCount ovf : Nat) (s : CalState) : CalState × List Event :=
  let measured := measured_rx_freq rawCount ovf
  let old := s.cal_factor
  if i ≠ 0 then
    let newCal : Int :=
      if measured ≠ 0 then huffPuff target_freq calibration_step measured s.cal_factor
      else s.cal_factor
    let faultEvents : List Event := if measured = 0 then [.swerr 8 0] else []
    (⟨newCal, old⟩,
      faultEvents ++
      [.logDebug i ovf (toInt16 rawCount),
       .logCalibration measured old newCal,
       .setCorrection newCal,
       .setFreq CAL_CLK_NUM target_freq,
       .delay 10])
  else
    (⟨s.cal_factor, old⟩, [])

/-- The iteration loop of `do_calibration`, starting at iteration index `i`,
consuming one window sample per iteration. -/
def calibrationLoop (target_freq calibration_step : Nat) (i : Nat)
    (samples : List (Nat × Nat)) (s : CalState) : CalState × List Event :=
  match samples with
  | [] => (s, [])
  | sample :: rest =>
    let r := calibrationIteration target_freq calibration_step i sample.1 sample.2 s
    let r' := calibrationLoop target_freq calibration_step (i + 1) rest r.1
    (r'.1, r.2 ++ r'.2)

/-- `do_calibration(calibration_step)` (lines 232–313): 24 iterations of the
sampling/correction loop, then clean-up pushes (calibration clock off, park
clock back on).  The window samples delivered by the hardware are an input
`samples`; a full cycle has `samples.length = 24`.  `parkFreq` is
`PARK_FREQ_HZ * 100`. -/
def do_calibration (target_freq calibration_step parkFreq : Nat)
    (samples : List (Nat × Nat)) (s : CalState) : CalState × List Event :=
  let r := calibrationLoop target_freq calibration_step 0 samples s
  (r.1, r.2 ++ [.enableClkOff CAL_CLK_NUM, .setFreq PARK_CLK_NUM parkFreq])

/-! ## The interrupt-driven PPS gate

Hardware-visible state shared between the interrupt handlers and the main
control flow.  `TCNT1` and the `unsigned int` variables are 16-bit.
`TCCR1B` holds the Timer1 clock-select bits: `7` (= `(1<<CS12)|(1<<CS11)|(1<<CS10)`,
external clock on T1) while counting, `0` when the counter is disabled.
`ppsTriggerEnabled` models the PPS interrupt-enable bit: the `INT1` bit of
`EIMSK` in the external-interrupt build, the `PCINT13` bit of `PCMSK1` in the
pin-change build. -/

/-- Shared hardware state of the calibration gate. -/
structure HwState where
  TCNT1 : Nat
  overflowCounter : Nat
  gpsPPScounter : Nat
  g_calibration_proceed : Bool
  is_PPS_rising_edge : Bool
  TCCR1B : Nat
  ppsTriggerEnabled : Bool
  deriving DecidableEq, Repr

/-- The two conditionally-compiled edge-source builds: `GPS_PPS_ON_D2_OR_D3`
(true external edge interrupts) and the pin-change-interrupt build. -/
inductive EdgeMode where
  | external
  | pinChange
  deriving DecidableEq, Repr

/-- Interrupt handler `ISR(TIMER1_OVF_vect)` (lines 57–60): increments the
16-bit `overflowCounter`. -/
def ISR_TIMER1_OVF (s : HwState) : HwState :=
  { s with overflowCounter := (s.overflowCounter + 1) % 65536 }

/-- Interrupt handler `PPSinterruptISR` (lines 65–85), the external-interrupt
variant: counts the edge; on the 1st edge re-zeroes Timer1 and the overflow
tally; on the 11th edge disables the PPS interrupt (`EIMSK`), disables the
Timer1 clock (`TCCR1B = 0`) and sets `g_calibration_proceed`. -/
def PPSinterruptISR (s : HwState) : HwState :=
  let s1 := { s with gpsPPScounter := (s.gpsPPScounter + 1) % 65536 }
  let s2 := if s1.gpsPPScounter = 1 then { s1 with TCNT1 := 0, overflowCounter := 0 } else s1
  if s2.gpsPPScounter = 11 then
    { s2 with ppsTriggerEnabled := false, TCCR1B := 0, g_calibration_proceed := true }
  else s2

/-- Interrupt handler `ISR(PCINT1_vect)` (lines 95–127), the pin-change
variant: fires on every physical transition, toggles `is_PPS_rising_edge`,
and treats only the toggles landing on `true` (every other transition,
starting from the first after arming) as qualifying edges; the qualifying-edge
body is the same as `PPSinterruptISR`, with the additional
`is_PPS_rising_edge = false` reset on close (line 119). -/
def ISR_PCINT1 (s : HwState) : HwState :=
  let s0 := { s with is_PPS_rising_edge := !s.is_PPS_rising_edge }
  if s0.is_PPS_rising_edge then
    let s1 := { s0 with gpsPPScounter := (s0.gpsPPScounter + 1) % 65536 }
    let s2 := if s1.gpsPPScounter = 1 then { s1 with TCNT1 := 0, overflowCounter := 0 } else s1
    if s2.gpsPPScounter = 11 then
      { s2 with ppsTriggerEnabled := false, TCCR1B := 0,
                is_PPS_rising_edge := false, g_calibration_proceed := true }
    else s2
  else s0

/-- Environment events concurrent with the main control flow: a PPS trigger
(`ppsEdge`: a rising edge of the PPS signal in the external build, one
physical pin transition in the pin-change build) and one pulse of the
calibration clock arriving at the T1 input (`calPulse`). -/
inductive HwEvent where
  | ppsEdge
  | calPulse
  deriving DecidableEq, Repr

/-- One environment step.  A PPS trigger invokes the configured handler only
while its interrupt-enable bit is set.  A calibration-clock pulse increments
`TCNT1` only while the Timer1 clock-select bits are nonzero; on wraparound of
the 16-bit counter, `TOV1` is set and `ISR(TIMER1_OVF_vect)` runs. -/
def hwStep (mode : EdgeMode) : HwEvent → HwState → HwState
  | .ppsEdge, s =>
    if s.ppsTriggerEnabled then
      match mode with
      | .external => PPSinterruptISR s
      | .pinChange => ISR_PCINT1 s
    else s
  | .calPulse, s =>
    if s.TCCR1B ≠ 0 then
      if s.TCNT1 + 1 = 65536 then ISR_TIMER1_OVF { s with TCNT1 := 0 }
      else { s with TCNT1 := s.TCNT1 + 1 }
    else s

/-- Run a sequence of environment events. -/
def runHw (mode : EdgeMode) (t : List HwEvent) (s : HwState) : HwState :=
  t.foldl (fun s e => hwStep mode e s) s

/-- The window-arming sequence at the top of each `do_calibration` iteration
(lines 241–258): clear the proceed flag, zero `gpsPPScounter` and
`overflowCounter`, enable the PPS trigger (and, in the pin-change build, reset
the toggle flag, line 253), and start the Timer1 counter (`TCCR1B = 7`).
`TCNT1` itself is not reset here; the handler re-zeroes it on the first
qualifying edge. -/
def armWindow (mode : EdgeMode) (s : HwState) : HwState :=
  { s with g_calibration_proceed := false
           gpsPPScounter := 0
           overflowCounter := 0
           ppsTriggerEnabled := true
           is_PPS_rising_edge :=
             match mode with
             | .external => s.is_PPS_rising_edge
             | .pinChange => false
           TCCR1B := 7 }

/-- Iterated delivery of PPS triggers (no calibration-clock pulses). -/
def ppsIter (mode : EdgeMode) (n : Nat) (s : HwState) : HwState :=
  (hwStep mode .ppsEdge)^[n] s

/-- The observation of the gate visible to the calibration controller: every
field except the internal `is_PPS_rising_edge` toggle. -/
def gateObs (s : HwState) : Nat × Nat × Nat × Bool × Nat × Bool :=
  (s.gpsPPScounter, s.TCNT1, s.overflowCounter,
   s.g_calibration_proceed, s.TCCR1B, s.ppsTriggerEnabled)

/-! ## Program-order write sequences of the window-close path

To talk about *ordering* of the stores inside the interrupt handlers, the
handler bodies on the closing (11th-edge) invocation are also given as lists
of atomic writes in source program order. -/

/-- Atomic stores performed by the interrupt handlers. -/
inductive HwWrite where
  /-- Store `is_PPS_rising_edge = !is_PPS_rising_edge` (line 102). -/
  | toggleRising
  /-- Store `gpsPPScounter++` (lines 67, 106). -/
  | incGps
  /-- Store `TCNT1 = 0` (lines 72, 111). -/
  | zeroTCNT1
  /-- Store `overflowCounter = 0` (lines 74, 113). -/
  | zeroOverflow
  /-- Store `EIMSK = (0 << INT1)` (line 78) resp. `PCMSK1 = (0 << PCINT13)` (line 117). -/
  | disableTrigger
  /-- Store `TCCR1B = 0` (lines 79, 118). -/
  | disableTimer
  /-- Store `is_PPS_rising_edge = false` (line 119). -/
  | clearRising
  /-- Store `g_calibration_proceed = true` (lines 82, 122). -/
  | setProceed
  deriving DecidableEq, Repr

/-- Effect of one atomic store. -/
def applyWrite : HwWrite → HwState → HwState
  | .toggleRising, s => { s with is_PPS_rising_edge := !s.is_PPS_rising_edge }
  | .incGps, s => { s with gpsPPScounter := (s.gpsPPScounter + 1) % 65536 }
  | .zeroTCNT1, s => { s with TCNT1 := 0 }
  | .zeroOverflow, s => { s with overflowCounter := 0 }
  | .disableTrigger, s => { s with ppsTriggerEnabled := false }
  | .disableTimer, s => { s with TCCR1B := 0 }
  | .clearRising, s => { s with is_PPS_rising_edge := false }
  | .setProceed, s => { s with g_calibration_proceed := true }

/-- Apply a sequence of stores in order. -/
def applyWrites (ws : List HwWrite) (s : HwState) : HwState :=
  ws.foldl (fun s w => applyWrite w s) s

/-- Stores executed by `PPSinterruptISR` on its 11th-edge (window-close)
invocation, in source program order (lines 67, 78, 79, 82). -/
def ppsCloseWrites : List HwWrite :=
  [.incGps, .disableTrigger, .disableTimer, .setProceed]

/-- Stores executed by `ISR(PCINT1_vect)` on its window-close invocation, in
source program order (lines 102, 106, 117, 118, 119, 122). -/
def pcintCloseWrites : List HwWrite :=
  [.toggleRising, .incGps, .disableTrigger, .disableTimer, .clearRising, .setProceed]

/-! ## The main loop as a trace of shared-state accesses

For the interrupt-masking claims, the shared-state accesses performed by the
body of the `do_calibration` loop after arming (lines 261–291) are listed in
program order, annotated as reads of the shared raw-count/overflow pair,
together with the interrupt mask operations `noInterrupts()` / `interrupts()`. -/

/-- Shared-state accesses and interrupt-mask operations of the main loop. -/
inductive MainAction where
  /-- Busy-wait `while (!g_calibration_proceed);` (line 261). -/
  | waitProceed
  /-- Call `noInterrupts()` (line 264). -/
  | cli
  /-- Call `interrupts()` (line 266). -/
  | sei
  /-- Read of `TCNT1` into `timer_counter1` (line 265). -/
  | readTCNT1
  /-- Read of `overflowCounter` (lines 269 and 291). -/
  | readOverflow
  deriving DecidableEq, Repr

/-- The accesses of one `do_calibration` loop body after arming, in source
program order: the busy-wait (line 261), `noInterrupts()` (line 264), the
`TCNT1` read (line 265), `interrupts()` (line 266), the `overflowCounter`
read in the frequency computation (line 269), and the `overflowCounter` read
in the debug-log call (line 291). -/
def mainLoopAccesses : List MainAction :=
  [.waitProceed, .cli, .readTCNT1, .sei, .readOverflow, .readOverflow]

/-- Auxiliary: scan of an access list tracking the interrupt mask (`true` =
interrupts suppressed), checking that every read singled out by `isRead`
happens while the mask is on. -/
def readsMaskedFrom (isRead : MainAction → Bool) : List MainAction → Bool → Bool
  | [], _ => true
  | a :: rest, masked =>
    match a with
    | .cli => readsMaskedFrom isRead rest true
    | .sei => readsMaskedFrom isRead rest false
    | _ => (!isRead a || masked) && readsMaskedFrom isRead rest masked

/-- Whether every read singled out by `isRead` occurs inside a critical
section with interrupts suppressed (interrupts start enabled). -/
def readsMasked (isRead : MainAction → Bool) (acts : List MainAction) : Bool :=
  readsMaskedFrom isRead acts false

/-- Whether an action is a read of the shared raw-count/overflow pair. -/
def isCounterPairRead : MainAction → Bool
  | .readTCNT1 => true
  | .readOverflow => true
  | _ => false

/-- Auxiliary: check that every counter-pair read comes strictly after the
busy-wait on the completion flag (`seen` = the busy-wait has run). -/
def readsAfterWaitFrom : List MainAction → Bool → Bool
  | [], _ => true
  | a :: rest, seen =>
    match a with
    | .waitProceed => readsAfterWaitFrom rest true
    | _ => (!isCounterPairRead a || seen) && readsAfterWaitFrom rest seen

/-- Whether every read of the counter pair occurs only after the main loop
has observed window completion. -/
def readsAfterWait (acts : List MainAction) : Bool :=
  readsAfterWaitFrom acts false

/-- Window-sample sequence for the signal-loss scenario: measured frequency
is zero on iteration 5 (sample `(0, 0)`), nonzero (`raw_count = 1`) on every
other of the 24 iterations. -/
def faultCycleSamples : List (Nat × Nat) :=
  [(1, 0), (1, 0), (1, 0), (1, 0), (1, 0), (0, 0)] ++ List.replicate 18 (1, 0)

/-- Whether an action is the `TCNT1` read. -/
def isTCNT1Read : MainAction → Bool
  | .readTCNT1 => true
  | _ => false

/-- Whether an action is an `overflowCounter` read. -/
def isOverflowRead : MainAction → Bool
  | .readOverflow => true
  | _ => false

/-- A hardware state with dirty counters and everything disabled, as left by
a previous window; used to instantiate theorems at concrete inputs. -/
def hwDirty : HwState :=
  { TCNT1 := 1234, overflowCounter := 56, gpsPPScounter := 11,
    g_calibration_proceed := false, is_PPS_rising_edge := false,
    TCCR1B := 0, ppsTriggerEnabled := false }

/-- Invariant of the external-interrupt gate after `k` PPS edges delivered to
a freshly armed window whose Timer1 counter held `c` at arm time: the edge
count saturates at 11, the trigger and counter run until the 11th edge and
are disabled from then on, completion is signaled exactly from the 11th edge,
and the counters are (re-)zeroed from the 1st edge on. -/
def extInv (c k : Nat) (s : HwState) : Prop :=
  s.gpsPPScounter = min k 11 ∧
  s.ppsTriggerEnabled = decide (k < 11) ∧
  s.g_calibration_proceed = decide (11 ≤ k) ∧
  s.TCCR1B = (if 11 ≤ k then 0 else 7) ∧
  s.TCNT1 = (if k = 0 then c else 0) ∧
  s.overflowCounter = 0

/-- Invariant of the pin-change gate after `m` physical transitions delivered
to a freshly armed window whose Timer1 counter held `c` at arm time: the
qualifying-edge count is `min ((m+1)/2) 11` (every other transition, starting
from the first), the gate closes on the 21st transition (11th qualifying
edge), and the toggle flag is up exactly after an odd transition before the
close. -/
def pcInv (c m : Nat) (s : HwState) : Prop :=
  s.gpsPPScounter = min ((m + 1) / 2) 11 ∧
  s.ppsTriggerEnabled = decide (m < 21) ∧
  s.g_calibration_proceed = decide (21 ≤ m) ∧
  s.TCCR1B = (if 21 ≤ m then 0 else 7) ∧
  s.TCNT1 = (if m = 0 then c else 0) ∧
  s.overflowCounter = 0 ∧
  s.is_PPS_rising_edge = decide (m % 2 = 1 ∧ m < 21)

/-- Safety property: whenever the completion flag is up, the Timer1 clock and
the PPS trigger source are disabled. -/
def proceedImpliesClosed (s : HwState) : Prop :=
  s.g_calibration_proceed = true → s.TCCR1B = 0 ∧ s.ppsTriggerEnabled = false

/-! # Helper lemmas -/

/-- Iteration 0 of the loop is discarded: it saves `old_cal_factor` and does
nothing else — no state change, no events. -/
theorem calibrationIteration_zero (t k raw ovf : Nat) (s : CalState) :
    calibrationIteration t k 0 raw ovf s = (⟨s.cal_factor, s.cal_factor⟩, []) := by
  simp [calibrationIteration]

/-- Each iteration moves `cal_factor` by at most `calibration_step`. -/
theorem calibrationIteration_cal_abs_le (t k i raw ovf : Nat) (s : CalState) :
    |(calibrationIteration t k i raw ovf s).1.cal_factor - s.cal_factor| ≤ (k : Int) := by
  by_cases hi : i = 0
  · subst hi
    simp [calibrationIteration]
  · by_cases hm : measured_rx_freq raw ovf = 0
    · simp [calibrationIteration, hi, hm]
    · simp only [calibrationIteration, huffPuff, if_pos hi, if_neg hm, ne_eq, hi,
        not_false_eq_true, ite_true, hm]
      split_ifs <;> (rw [abs_le]; constructor <;> omega)

/-- The loop moves `cal_factor` by at most `calibration_step` per sample. -/
theorem calibrationLoop_cal_abs_le (t k : Nat) (samples : List (Nat × Nat)) :
    ∀ (i : Nat) (s : CalState),
      |(calibrationLoop t k i samples s).1.cal_factor - s.cal_factor| ≤
        (samples.length : Int) * k := by
  induction samples with
  | nil => intro i s; simp [calibrationLoop]
  | cons a rest ih =>
    intro i s
    have h1 := calibrationIteration_cal_abs_le t k i a.1 a.2 s
    have h2 := ih (i + 1) (calibrationIteration t k i a.1 a.2 s).1
    simp only [calibrationLoop]
    calc |(calibrationLoop t k (i + 1) rest (calibrationIteration t k i a.1 a.2 s).1).1.cal_factor
            - s.cal_factor|
        ≤ |(calibrationLoop t k (i + 1) rest
              (calibrationIteration t k i a.1 a.2 s).1).1.cal_factor
            - (calibrationIteration t k i a.1 a.2 s).1.cal_factor|
          + |(calibrationIteration t k i a.1 a.2 s).1.cal_factor - s.cal_factor| :=
          abs_sub_le _ _ _
      _ ≤ (rest.length : Int) * k + k := add_le_add h2 h1
      _ = ((a :: rest).length : Int) * k := by
            simp only [List.length_cons]
            push_cast
            ring

/-! # Claim theorems -/

/-- C1: on every non-discarded iteration (index ≥ 1) with nonzero measured
frequency, the Huff-n-Puff step is applied exactly as: if the measured
frequency is below the target the correction factor decreases by exactly
`calibration_step`; if above, it increases by exactly `calibration_step`; if
equal, it is unchanged. -/
theorem C1_huff_n_puff_step (t k i raw ovf : Nat) (s : CalState)
    (hi : 1 ≤ i) (hm : measured_rx_freq raw ovf ≠ 0) :
    (measured_rx_freq raw ovf < t →
      (calibrationIteration t k i raw ovf s).1.cal_factor = s.cal_factor - k) ∧
    (t < measured_rx_freq raw ovf →
      (calibrationIteration t k i raw ovf s).1.cal_factor = s.cal_factor + k) ∧
    (measured_rx_freq raw ovf = t →
      (calibrationIteration t k i raw ovf s).1.cal_factor = s.cal_factor) := by
  have hi0 : i ≠ 0 := by omega
  refine ⟨fun h => ?_, fun h => ?_, fun h => ?_⟩
  · simp [calibrationIteration, huffPuff, hi0, hm, h, Nat.lt_asymm h]
  · simp [calibrationIteration, huffPuff, hi0, hm, h, Nat.lt_asymm h]
  · simp [calibrationIteration, huffPuff, hi0, hm, h]

/-- Witness for C1 at a concrete input: iteration 1, `raw_count = 1`,
measured frequency `10`, target `100`, step `50`. -/
theorem C1_huff_n_puff_step_witness :
    1 ≤ 1 ∧ measured_rx_freq 1 0 ≠ 0 ∧
    ((measured_rx_freq 1 0 < 100 →
      (calibrationIteration 100 50 1 1 0 ⟨0, 7⟩).1.cal_factor = (0 : Int) - 50) ∧
     (100 < measured_rx_freq 1 0 →
      (calibrationIteration 100 50 1 1 0 ⟨0, 7⟩).1.cal_factor = (0 : Int) + 50) ∧
     (measured_rx_freq 1 0 = 100 →
      (calibrationIteration 100 50 1 1 0 ⟨0, 7⟩).1.cal_factor = (0 : Int))) :=
  ⟨by decide, by decide, C1_huff_n_puff_step 100 50 1 1 0 ⟨0, 7⟩ (by decide) (by decide)⟩

/-- C2 (code bug): `timer_counter1` is a 16-bit signed `int` receiving the
16-bit counter `TCNT1`, so for `raw_count = 32768` (and any raw count
≥ 32768) the computed measured frequency diverges from the specified formula
`(raw_count + 65536 * overflow_count) * 10`: at `raw_count = 32768`,
`overflow_count = 0` the code yields `2^64 - 327680` instead of `327680`. -/
theorem C2_int16_truncation_bug :
    measured_rx_freq 32768 0 = 2 ^ 64 - 327680 ∧
    specMeasuredFreq 32768 0 = 327680 ∧
    measured_rx_freq 32768 0 ≠ specMeasuredFreq 32768 0 := by
  decide

/-- For raw counts below `32768` (where the signed 16-bit conversion is the
identity) the code does compute the specified formula. -/
theorem measured_rx_freq_eq_spec_of_lt (raw ovf : Nat) (hraw : raw < 32768)
    (hovf : ovf < 65536) :
    measured_rx_freq raw ovf = specMeasuredFreq raw ovf := by
  have ht : toInt16 raw = (raw : Int) := by simp [toInt16, hraw]
  have hnonneg : (0 : Int) ≤ ((raw : Int) + 65536 * ovf) * 10 := by positivity
  have hlt : ((raw : Int) + 65536 * ovf) * 10 < 2 ^ 64 := by
    have h1 : (raw : Int) < 32768 := by exact_mod_cast hraw
    have h2 : (ovf : Int) < 65536 := by exact_mod_cast hovf
    nlinarith
  simp only [measured_rx_freq, toUInt64Nat, ht, Int.emod_eq_of_lt hnonneg hlt,
    specMeasuredFreq]
  omega

/-- C6 counterexample: the claim's directions are swapped relative to the
code.  On iteration 1 with measured frequency `10` strictly below target
`1000000` and step `50`, the correction factor moves from `0` to `-50`
(a decrease), not to `+50` as the claim asserts. -/
theorem C6_directions_counterexample :
    measured_rx_freq 1 0 < 1000000 ∧
    (calibrationIteration 1000000 50 1 1 0 ⟨0, 0⟩).1.cal_factor = (-50 : Int) ∧
    (calibrationIteration 1000000 50 1 1 0 ⟨0, 0⟩).1.cal_factor ≠ (0 : Int) + 50 := by
  decide

/-- C6 amended: on every non-discarded iteration with nonzero measured
frequency and positive step, if the measured frequency is strictly greater
than the target the correction factor strictly increases by exactly
`calibration_step`, and if strictly less it strictly decreases by exactly
`calibration_step`. -/
theorem C6_strict_step_directions (t k i raw ovf : Nat) (s : CalState)
    (hi : 1 ≤ i) (hk : 0 < k) (hm : measured_rx_freq raw ovf ≠ 0) :
    (t < measured_rx_freq raw ovf →
      (calibrationIteration t k i raw ovf s).1.cal_factor = s.cal_factor + k ∧
      s.cal_factor < (calibrationIteration t k i raw ovf s).1.cal_factor) ∧
    (measured_rx_freq raw ovf < t →
      (calibrationIteration t k i raw ovf s).1.cal_factor = s.cal_factor - k ∧
      (calibrationIteration t k i raw ovf s).1.cal_factor < s.cal_factor) := by
  have hi0 : i ≠ 0 := by omega
  constructor
  · intro h
    have heq : (calibrationIteration t k i raw ovf s).1.cal_factor = s.cal_factor + k := by
      simp [calibrationIteration, huffPuff, hi0, hm, h, Nat.lt_asymm h]
    exact ⟨heq, by rw [heq]; omega⟩
  · intro h
    have heq : (calibrationIteration t k i raw ovf s).1.cal_factor = s.cal_factor - k := by
      simp [calibrationIteration, huffPuff, hi0, hm, h, Nat.lt_asymm h]
    exact ⟨heq, by rw [heq]; omega⟩

/-- Witness for the amended C6 at a concrete input: iteration 2, measured
frequency `10`, target `3`, step `50`. -/
theorem C6_strict_step_directions_witness :
    1 ≤ 2 ∧ 0 < 50 ∧ measured_rx_freq 1 0 ≠ 0 ∧
    ((3 < measured_rx_freq 1 0 →
      (calibrationIteration 3 50 2 1 0 ⟨0, 0⟩).1.cal_factor = (0 : Int) + 50 ∧
      (0 : Int) < (calibrationIteration 3 50 2 1 0 ⟨0, 0⟩).1.cal_factor) ∧
     (measured_rx_freq 1 0 < 3 →
      (calibrationIteration 3 50 2 1 0 ⟨0, 0⟩).1.cal_factor = (0 : Int) - 50 ∧
      (calibrationIteration 3 50 2 1 0 ⟨0, 0⟩).1.cal_factor < (0 : Int))) :=
  ⟨by decide, by decide, by decide,
    C6_strict_step_directions 3 50 2 1 0 ⟨0, 0⟩ (by decide) (by decide) (by decide)⟩

/-- C7: iteration 0 of every calibration cycle mutates no correction state,
pushes nothing to the synthesizer driver, and emits no log record — its event
list is empty. -/
theorem C7_iteration_zero_no_effects (t k raw ovf : Nat) (s : CalState) :
    (calibrationIteration t k 0 raw ovf s).1.cal_factor = s.cal_factor ∧
    ((calibrationIteration t k 0 raw ovf s).2.filter (·.isSynthCall)) = [] ∧
    ((calibrationIteration t k 0 raw ovf s).2.filter (·.isLogRecord)) = [] ∧
    (calibrationIteration t k 0 raw ovf s).2 = [] := by
  simp [calibrationIteration]

/-- C9: across one complete 24-iteration call to `do_calibration`, the final
committed correction factor differs from the initial one by at most
`23 * calibration_step` in absolute value (iteration 0 is discarded, so at
most 23 iterations adjust, each by at most one step). -/
theorem C9_total_correction_bound (t k park : Nat) (samples : List (Nat × Nat))
    (s : CalState) (h : samples.length = 24) :
    |(do_calibration t k park samples s).1.cal_factor - s.cal_factor| ≤ 23 * (k : Int) := by
  match samples, h with
  | a :: rest, h =>
    have hr : (rest.length : Int) = 23 := by
      have : rest.length = 23 := by simpa using h
      exact_mod_cast this
    have hb := calibrationLoop_cal_abs_le t k rest 1 ⟨s.cal_factor, s.cal_factor⟩
    rw [hr] at hb
    simp only [do_calibration, calibrationLoop, calibrationIteration_zero]
    calc |(calibrationLoop t k 1 rest ⟨s.cal_factor, s.cal_factor⟩).1.cal_factor
            - s.cal_factor| ≤ 23 * (k : Int) := hb

/-- Witness for C9 at a concrete input: a 24-sample cycle whose measured
frequency is always above the target, so the correction rises by the maximal
`23` steps. -/
theorem C9_total_correction_bound_witness :
    (List.replicate 24 ((1 : Nat), (0 : Nat))).length = 24 ∧
    |(do_calibration 3 50 100 (List.replicate 24 ((1 : Nat), (0 : Nat)))
        ⟨0, 0⟩).1.cal_factor - (0 : Int)| ≤ 23 * (50 : Int) :=
  ⟨by decide,
    C9_total_correction_bound 3 50 100 (List.replicate 24 ((1 : Nat), (0 : Nat)))
      ⟨0, 0⟩ (by decide)⟩

/-- C3 counterexample: in the cycle `faultCycleSamples` (measured frequency
zero on iteration 5, `10` — above the target `5` — on all other iterations,
step `1`), the controller does not abort: iteration 23 still runs (its debug
log record is emitted) and the cycle-end correction factor is `22`, not the
value `4` it held as of iteration 4, the last iteration before the fault. -/
theorem C3_no_abort_counterexample :
    measured_rx_freq 0 0 = 0 ∧
    faultCycleSamples.length = 24 ∧
    (calibrationLoop 5 1 0 (faultCycleSamples.take 5) ⟨0, 0⟩).1.cal_factor = 4 ∧
    (do_calibration 5 1 100 faultCycleSamples ⟨0, 0⟩).1.cal_factor = 22 ∧
    (do_calibration 5 1 100 faultCycleSamples ⟨0, 0⟩).1.cal_factor ≠
      (calibrationLoop 5 1 0 (faultCycleSamples.take 5) ⟨0, 0⟩).1.cal_factor ∧
    Event.logDebug 23 0 (toInt16 1) ∈ (do_calibration 5 1 100 faultCycleSamples ⟨0, 0⟩).2 := by
  decide

/-- C3 amended: if the measured frequency is exactly zero on a non-discarded
iteration, the controller records software error `(8, 0)` and leaves the
correction factor unchanged on that iteration, but it does not abort: the
remaining iterations of the cycle still run, continuing from the unchanged
correction factor. -/
theorem C3_swerr_and_continue (t k i raw ovf : Nat) (s : CalState)
    (rest : List (Nat × Nat)) (hi : 1 ≤ i) (hm : measured_rx_freq raw ovf = 0) :
    Event.swerr 8 0 ∈ (calibrationIteration t k i raw ovf s).2 ∧
    (calibrationIteration t k i raw ovf s).1.cal_factor = s.cal_factor ∧
    calibrationLoop t k i ((raw, ovf) :: rest) s =
      ((calibrationLoop t k (i + 1) rest ⟨s.cal_factor, s.cal_factor⟩).1,
        (calibrationIteration t k i raw ovf s).2 ++
          (calibrationLoop t k (i + 1) rest ⟨s.cal_factor, s.cal_factor⟩).2) := by
  have hi0 : i ≠ 0 := by omega
  refine ⟨?_, ?_, ?_⟩
  · simp [calibrationIteration, hi0, hm]
  · simp [calibrationIteration, hi0, hm]
  · have hit : (calibrationIteration t k i raw ovf s).1 = ⟨s.cal_factor, s.cal_factor⟩ := by
      simp [calibrationIteration, hi0, hm]
    simp only [calibrationLoop, hit]

/-- Witness for the amended C3 at a concrete input: iteration 5 with a zero
sample, one remaining sample. -/
theorem C3_swerr_and_continue_witness :
    1 ≤ 5 ∧ measured_rx_freq 0 0 = 0 ∧
    (Event.swerr 8 0 ∈ (calibrationIteration 5 1 5 0 0 ⟨4, 3⟩).2 ∧
     (calibrationIteration 5 1 5 0 0 ⟨4, 3⟩).1.cal_factor = (4 : Int) ∧
     calibrationLoop 5 1 5 ((0, 0) :: [(1, 0)]) ⟨4, 3⟩ =
       ((calibrationLoop 5 1 6 [(1, 0)] ⟨4, 4⟩).1,
         (calibrationIteration 5 1 5 0 0 ⟨4, 3⟩).2 ++
           (calibrationLoop 5 1 6 [(1, 0)] ⟨4, 4⟩).2)) :=
  ⟨by decide, by decide, C3_swerr_and_continue 5 1 5 0 0 ⟨4, 3⟩ [(1, 0)] (by decide) (by decide)⟩

/-- One PPS edge preserves the external-gate invariant. -/
theorem extInv_step (c k : Nat) (s : HwState) (h : extInv c k s) :
    extInv c (k + 1) (hwStep .external .ppsEdge s) := by
  obtain ⟨h1, h2, h3, h4, h5, h6⟩ := h
  by_cases hk : k < 11
  · have h1' : s.gpsPPScounter = k := by rw [h1]; omega
    have h2' : s.ppsTriggerEnabled = true := by rw [h2]; simp [hk]
    interval_cases k <;> simp_all [hwStep, PPSinterruptISR, extInv]
  · have hk' : (11 : Nat) ≤ k := by omega
    have h2' : s.ppsTriggerEnabled = false := by rw [h2]; simp [hk]
    simp only [hwStep, h2', Bool.false_eq_true, if_false]
    refine ⟨by rw [h1]; omega,
      by rw [h2]; simp only [decide_eq_decide]; omega,
      by rw [h3]; simp only [decide_eq_decide]; omega,
      by rw [h4, if_pos hk', if_pos (by omega : (11 : Nat) ≤ k + 1)],
      by rw [h5, if_neg (by omega : ¬ k = 0), if_neg (by omega : ¬ k + 1 = 0)],
      h6⟩

/-- One physical pin transition preserves the pin-change-gate invariant. -/
theorem pcInv_step (c m : Nat) (s : HwState) (h : pcInv c m s) :
    pcInv c (m + 1) (hwStep .pinChange .ppsEdge s) := by
  obtain ⟨h1, h2, h3, h4, h5, h6, h7⟩ := h
  by_cases hm : m < 21
  · have h2' : s.ppsTriggerEnabled = true := by rw [h2]; simp [hm]
    interval_cases m <;> simp_all [hwStep, ISR_PCINT1, pcInv]
  · have hm' : (21 : Nat) ≤ m := by omega
    have h2' : s.ppsTriggerEnabled = false := by rw [h2]; simp [hm]
    simp only [hwStep, h2', Bool.false_eq_true, if_false]
    refine ⟨by rw [h1]; omega,
      by rw [h2]; simp only [decide_eq_decide]; omega,
      by rw [h3]; simp only [decide_eq_decide]; omega,
      by rw [h4, if_pos hm', if_pos (by omega : (21 : Nat) ≤ m + 1)],
      by rw [h5, if_neg (by omega : ¬ m = 0), if_neg (by omega : ¬ m + 1 = 0)],
      h6,
      by rw [h7]; simp only [decide_eq_decide]; omega⟩

/-- A freshly armed external-build window satisfies the gate invariant. -/
theorem extInv_armWindow (s : HwState) : extInv s.TCNT1 0 (armWindow .external s) := by
  simp [extInv, armWindow]

/-- A freshly armed pin-change-build window satisfies the gate invariant. -/
theorem pcInv_armWindow (s : HwState) : pcInv s.TCNT1 0 (armWindow .pinChange s) := by
  simp [pcInv, armWindow]

/-- The external-gate invariant after `n` PPS edges from arming. -/
theorem extInv_ppsIter (s : HwState) (n : Nat) :
    extInv s.TCNT1 n (ppsIter .external n (armWindow .external s)) := by
  induction n with
  | zero => simpa [ppsIter] using extInv_armWindow s
  | succ n ih =>
    have := extInv_step s.TCNT1 n _ ih
    simpa [ppsIter, Function.iterate_succ_apply'] using this

/-- The pin-change-gate invariant after `m` physical transitions from arming. -/
theorem pcInv_ppsIter (s : HwState) (m : Nat) :
    pcInv s.TCNT1 m (ppsIter .pinChange m (armWindow .pinChange s)) := by
  induction m with
  | zero => simpa [ppsIter] using pcInv_armWindow s
  | succ m ih =>
    have := pcInv_step s.TCNT1 m _ ih
    simpa [ppsIter, Function.iterate_succ_apply'] using this

/-- C4: for every armed window, in both edge-source builds the gate closes
after exactly 11 qualifying edges: completion is signaled, the Timer1 clock
is disabled and the trigger source is disabled exactly from the 11th
qualifying edge on (the 21st physical transition in the pin-change build),
and the reference counter is re-zeroed on the 1st qualifying edge. -/
theorem C4_window_closes_after_11_qualifying_edges (s s₂ : HwState) (n : Nat) :
    ((ppsIter .external n (armWindow .external s)).gpsPPScounter = min n 11 ∧
     (ppsIter .external n (armWindow .external s)).g_calibration_proceed = decide (11 ≤ n) ∧
     (ppsIter .external n (armWindow .external s)).ppsTriggerEnabled = decide (n < 11) ∧
     (ppsIter .external n (armWindow .external s)).TCCR1B = (if 11 ≤ n then 0 else 7) ∧
     (ppsIter .external n (armWindow .external s)).TCNT1 = (if n = 0 then s.TCNT1 else 0) ∧
     (ppsIter .external n (armWindow .external s)).overflowCounter = 0) ∧
    ((ppsIter .pinChange n (armWindow .pinChange s)).gpsPPScounter = min ((n + 1) / 2) 11 ∧
     (ppsIter .pinChange n (armWindow .pinChange s)).g_calibration_proceed = decide (21 ≤ n) ∧
     (ppsIter .pinChange n (armWindow .pinChange s)).ppsTriggerEnabled = decide (n < 21) ∧
     (ppsIter .pinChange n (armWindow .pinChange s)).TCCR1B = (if 21 ≤ n then 0 else 7) ∧
     (ppsIter .pinChange n (armWindow .pinChange s)).TCNT1 = (if n = 0 then s.TCNT1 else 0) ∧
     (ppsIter .pinChange n (armWindow .pinChange s)).overflowCounter = 0) ∧
    (s₂.ppsTriggerEnabled = true → s₂.gpsPPScounter = 0 →
      (hwStep .external .ppsEdge s₂).TCNT1 = 0 ∧
      (hwStep .external .ppsEdge s₂).overflowCounter = 0 ∧
      (hwStep .external .ppsEdge s₂).gpsPPScounter = 1) ∧
    (s₂.ppsTriggerEnabled = true → s₂.gpsPPScounter = 0 → s₂.is_PPS_rising_edge = false →
      (hwStep .pinChange .ppsEdge s₂).TCNT1 = 0 ∧
      (hwStep .pinChange .ppsEdge s₂).overflowCounter = 0 ∧
      (hwStep .pinChange .ppsEdge s₂).gpsPPScounter = 1) := by
  obtain ⟨e1, e2, e3, e4, e5, e6⟩ := extInv_ppsIter s n
  obtain ⟨p1, p2, p3, p4, p5, p6, p7⟩ := pcInv_ppsIter s n
  refine ⟨⟨e1, e3, e2, e4, e5, e6⟩, ⟨p1, p3, p2, p4, p5, p6⟩, ?_, ?_⟩
  · intro ht hg
    simp [hwStep, PPSinterruptISR, ht, hg]
  · intro ht hg hr
    simp [hwStep, ISR_PCINT1, ht, hg, hr]

/-- Witness for C4 at concrete inputs: after 21 PPS triggers from arming a
dirty state, the external gate is long closed and the pin-change gate closes
exactly; the first qualifying edge after arming re-zeroes the counters in
both builds. -/
theorem C4_window_closes_witness :
    ((ppsIter .external 21 (armWindow .external hwDirty)).gpsPPScounter = min 21 11 ∧
     (ppsIter .external 21 (armWindow .external hwDirty)).g_calibration_proceed =
       decide (11 ≤ 21) ∧
     (ppsIter .external 21 (armWindow .external hwDirty)).ppsTriggerEnabled =
       decide (21 < 11) ∧
     (ppsIter .external 21 (armWindow .external hwDirty)).TCCR1B =
       (if 11 ≤ 21 then 0 else 7) ∧
     (ppsIter .external 21 (armWindow .external hwDirty)).TCNT1 =
       (if 21 = 0 then hwDirty.TCNT1 else 0) ∧
     (ppsIter .external 21 (armWindow .external hwDirty)).overflowCounter = 0) ∧
    ((ppsIter .pinChange 21 (armWindow .pinChange hwDirty)).gpsPPScounter =
       min ((21 + 1) / 2) 11 ∧
     (ppsIter .pinChange 21 (armWindow .pinChange hwDirty)).g_calibration_proceed =
       decide (21 ≤ 21) ∧
     (ppsIter .pinChange 21 (armWindow .pinChange hwDirty)).ppsTriggerEnabled =
       decide (21 < 21) ∧
     (ppsIter .pinChange 21 (armWindow .pinChange hwDirty)).TCCR1B =
       (if 21 ≤ 21 then 0 else 7) ∧
     (ppsIter .pinChange 21 (armWindow .pinChange hwDirty)).TCNT1 =
       (if 21 = 0 then hwDirty.TCNT1 else 0) ∧
     (ppsIter .pinChange 21 (armWindow .pinChange hwDirty)).overflowCounter = 0) ∧
    ((hwStep .external .ppsEdge (armWindow .external hwDirty)).TCNT1 = 0 ∧
     (hwStep .external .ppsEdge (armWindow .external hwDirty)).overflowCounter = 0 ∧
     (hwStep .external .ppsEdge (armWindow .external hwDirty)).gpsPPScounter = 1) ∧
    ((hwStep .pinChange .ppsEdge (armWindow .external hwDirty)).TCNT1 = 0 ∧
     (hwStep .pinChange .ppsEdge (armWindow .external hwDirty)).overflowCounter = 0 ∧
     (hwStep .pinChange .ppsEdge (armWindow .external hwDirty)).gpsPPScounter = 1) :=
  have h := C4_window_closes_after_11_qualifying_edges hwDirty
    (armWindow .external hwDirty) 21
  ⟨h.1, h.2.1,
   h.2.2.1 (by decide) (by decide),
   h.2.2.2 (by decide) (by decide) (by decide)⟩

/-- C5: in the pin-change build, exactly every other physical transition,
starting from the first after arming, is counted as a qualifying edge, and
delivering `2n` physical transitions (2 per logical pulse) produces a gate
observably identical to the true-edge build after `n` edges. -/
theorem C5_toggle_equals_true_edge (s : HwState) (m n : Nat) :
    (ppsIter .pinChange m (armWindow .pinChange s)).gpsPPScounter = min ((m + 1) / 2) 11 ∧
    gateObs (ppsIter .pinChange (2 * n) (armWindow .pinChange s)) =
      gateObs (ppsIter .external n (armWindow .external s)) := by
  obtain ⟨p1, _, _, _, _, _, _⟩ := pcInv_ppsIter s m
  obtain ⟨q1, q2, q3, q4, q5, q6, _⟩ := pcInv_ppsIter s (2 * n)
  obtain ⟨e1, e2, e3, e4, e5, e6⟩ := extInv_ppsIter s n
  refine ⟨p1, ?_⟩
  simp only [gateObs, Prod.mk.injEq]
  refine ⟨?_, ?_, ?_, ?_, ?_, ?_⟩
  · rw [q1, e1]; congr 1; omega
  · rw [q5, e5]
    by_cases hn : n = 0
    · subst hn; norm_num
    · rw [if_neg (by omega), if_neg hn]
  · rw [q6, e6]
  · rw [q3, e3]; simp only [decide_eq_decide]; omega
  · rw [q4, e4]
    by_cases hn : 11 ≤ n
    · rw [if_pos (by omega), if_pos hn]
    · rw [if_neg (by omega), if_neg hn]
  · rw [q2, e2]; simp only [decide_eq_decide]; omega

/-- Once the Timer1 clock and the PPS trigger are disabled, every environment
event is a no-op: the shared state is frozen. -/
theorem hwStep_frozen (mode : EdgeMode) (e : HwEvent) (s : HwState)
    (htb : s.TCCR1B = 0) (htr : s.ppsTriggerEnabled = false) :
    hwStep mode e s = s := by
  cases e <;> simp [hwStep, htb, htr]

/-- The frozen state persists across any event sequence. -/
theorem runHw_frozen (mode : EdgeMode) (t : List HwEvent) (s : HwState)
    (htb : s.TCCR1B = 0) (htr : s.ppsTriggerEnabled = false) :
    runHw mode t s = s := by
  induction t with
  | nil => rfl
  | cons e t ih =>
    simp only [runHw, List.foldl_cons] at ih ⊢
    rw [hwStep_frozen mode e s htb htr]
    exact ih

/-- Every environment step preserves the safety property that a raised
completion flag implies the Timer1 clock and trigger are disabled. -/
theorem hwStep_preserves_pic (mode : EdgeMode) (e : HwEvent) (s : HwState)
    (h : proceedImpliesClosed s) : proceedImpliesClosed (hwStep mode e s) := by
  intro hpost
  by_cases hpr : s.g_calibration_proceed = true
  · obtain ⟨htb, htr⟩ := h hpr
    rw [hwStep_frozen mode e s htb htr] at hpost ⊢
    exact ⟨htb, htr⟩
  · cases e with
    | calPulse =>
      simp only [hwStep] at hpost ⊢
      split_ifs at hpost ⊢ <;> simp_all [ISR_TIMER1_OVF]
    | ppsEdge =>
      by_cases htr : s.ppsTriggerEnabled = true
      · cases mode with
        | external =>
          simp only [hwStep, htr, ite_true] at hpost ⊢
          simp only [PPSinterruptISR] at hpost ⊢
          split_ifs at hpost ⊢ <;> simp_all
        | pinChange =>
          simp only [hwStep, htr, ite_true] at hpost ⊢
          simp only [ISR_PCINT1] at hpost ⊢
          split_ifs at hpost ⊢ <;> simp_all
      · have htr' : s.ppsTriggerEnabled = false := by simpa using htr
        simp only [hwStep, htr', Bool.false_eq_true, if_false] at hpost ⊢
        exact absurd hpost (by simp [hpr])

/-- The safety property is preserved by any event sequence. -/
theorem runHw_preserves_pic (mode : EdgeMode) (t : List HwEvent) (s : HwState)
    (h : proceedImpliesClosed s) : proceedImpliesClosed (runHw mode t s) := by
  induction t generalizing s with
  | nil => exact h
  | cons e t ih =>
    simp only [runHw, List.foldl_cons]
    exact ih _ (hwStep_preserves_pic mode e s h)

/-- A freshly armed window satisfies the safety property (its completion flag
is down). -/
theorem armWindow_pic (mode : EdgeMode) (s : HwState) :
    proceedImpliesClosed (armWindow mode s) := by
  intro h
  simp [armWindow] at h

/-- C8 counterexample: it is not the case that every main-loop read of the
shared raw-count/overflow pair occurs inside a critical section with
interrupts suppressed — the `overflowCounter` reads at lines 269 and 291 are
outside the `noInterrupts()`/`interrupts()` bracket. -/
theorem C8_unmasked_overflow_read_counterexample :
    readsMasked isCounterPairRead mainLoopAccesses = false := by
  decide

/-- C8 amended: the main loop reads the counter pair only after window
completion is observed (never while armed); the `TCNT1` read is inside the
critical section but the `overflowCounter` reads are outside it; no torn read
is possible nonetheless, because whenever the completion flag is observed the
Timer1 clock and trigger source are disabled, so no further environment
events change the shared state until re-arm. -/
theorem C8_reads_after_completion :
    readsAfterWait mainLoopAccesses = true ∧
    readsMasked isTCNT1Read mainLoopAccesses = true ∧
    readsMasked isOverflowRead mainLoopAccesses = false ∧
    (∀ (mode : EdgeMode) (s : HwState) (t u : List HwEvent),
      (runHw mode t (armWindow mode s)).g_calibration_proceed = true →
      runHw mode u (runHw mode t (armWindow mode s)) =
        runHw mode t (armWindow mode s)) := by
  refine ⟨by decide, by decide, by decide, ?_⟩
  intro mode s t u hp
  obtain ⟨htb, htr⟩ :=
    runHw_preserves_pic mode t (armWindow mode s) (armWindow_pic mode s) hp
  exact runHw_frozen mode u _ htb htr

/-- Witness for the amended C8 at a concrete input: after 11 edges the
completion flag is up and further events (a calibration pulse, a PPS edge)
leave the state untouched. -/
theorem C8_reads_after_completion_witness :
    (runHw .external (List.replicate 11 .ppsEdge)
        (armWindow .external hwDirty)).g_calibration_proceed = true ∧
    runHw .external [.calPulse, .ppsEdge]
        (runHw .external (List.replicate 11 .ppsEdge) (armWindow .external hwDirty)) =
      runHw .external (List.replicate 11 .ppsEdge) (armWindow .external hwDirty) :=
  ⟨by decide,
    C8_reads_after_completion.2.2.2 .external hwDirty
      (List.replicate 11 .ppsEdge) [.calPulse, .ppsEdge] (by decide)⟩

/-- C10: in both handler variants the window-close path stores the Timer1
clock disable and the trigger disable strictly before the completion-flag
store (every prefix of the close sequence in which the flag is up already has
both disabled; the write lists agree with the handler functions), and from
any state with the flag up and both disabled, no environment event changes
`TCNT1` or `overflowCounter` — the whole state is frozen until re-arm. -/
theorem C10_disable_before_proceed :
    (HwWrite.disableTrigger ∈ ppsCloseWrites.takeWhile (fun w => w != HwWrite.setProceed) ∧
     HwWrite.disableTimer ∈ ppsCloseWrites.takeWhile (fun w => w != HwWrite.setProceed) ∧
     HwWrite.setProceed ∈ ppsCloseWrites ∧
     HwWrite.disableTrigger ∈ pcintCloseWrites.takeWhile (fun w => w != HwWrite.setProceed) ∧
     HwWrite.disableTimer ∈ pcintCloseWrites.takeWhile (fun w => w != HwWrite.setProceed) ∧
     HwWrite.setProceed ∈ pcintCloseWrites) ∧
    (∀ s : HwState, s.gpsPPScounter = 10 →
      applyWrites ppsCloseWrites s = PPSinterruptISR s) ∧
    (∀ s : HwState, s.gpsPPScounter = 10 → s.is_PPS_rising_edge = false →
      applyWrites pcintCloseWrites s = ISR_PCINT1 s) ∧
    (∀ (j : Nat) (s : HwState), s.g_calibration_proceed = false →
      (applyWrites (ppsCloseWrites.take j) s).g_calibration_proceed = true →
      (applyWrites (ppsCloseWrites.take j) s).TCCR1B = 0 ∧
      (applyWrites (ppsCloseWrites.take j) s).ppsTriggerEnabled = false) ∧
    (∀ (j : Nat) (s : HwState), s.g_calibration_proceed = false →
      (applyWrites (pcintCloseWrites.take j) s).g_calibration_proceed = true →
      (applyWrites (pcintCloseWrites.take j) s).TCCR1B = 0 ∧
      (applyWrites (pcintCloseWrites.take j) s).ppsTriggerEnabled = false) ∧
    (∀ (mode : EdgeMode) (t : List HwEvent) (s : HwState),
      s.g_calibration_proceed = true → s.TCCR1B = 0 → s.ppsTriggerEnabled = false →
      (runHw mode t s).TCNT1 = s.TCNT1 ∧
      (runHw mode t s).overflowCounter = s.overflowCounter ∧
      runHw mode t s = s) := by
  refine ⟨by decide, ?_, ?_, ?_, ?_, ?_⟩
  · intro s h
    simp [applyWrites, applyWrite, ppsCloseWrites, PPSinterruptISR, h]
  · intro s h hr
    simp [applyWrites, applyWrite, pcintCloseWrites, ISR_PCINT1, h, hr]
  · intro j s hpr hpost
    rcases j with _ | _ | _ | _ | j <;>
      simp_all [ppsCloseWrites, applyWrites, applyWrite, List.take_succ_cons]
  · intro j s hpr hpost
    rcases j with _ | _ | _ | _ | _ | _ | j <;>
      simp_all [pcintCloseWrites, applyWrites, applyWrite, List.take_succ_cons]
  · intro mode t s hpr htb htr
    have hfr := runHw_frozen mode t s htb htr
    exact ⟨by rw [hfr], by rw [hfr], hfr⟩

/-- Witness for C10 at concrete inputs: the full close sequence from a
10-edge state has the flag up with clock and trigger disabled, the write
list agrees with `PPSinterruptISR`, and a frozen completed state is untouched
by further events. -/
theorem C10_disable_before_proceed_witness :
    ((applyWrites (ppsCloseWrites.take 4)
        { hwDirty with gpsPPScounter := 10, TCCR1B := 7,
                       ppsTriggerEnabled := true }).TCCR1B = 0 ∧
     (applyWrites (ppsCloseWrites.take 4)
        { hwDirty with gpsPPScounter := 10, TCCR1B := 7,
                       ppsTriggerEnabled := true }).ppsTriggerEnabled = false) ∧
    applyWrites ppsCloseWrites { hwDirty with gpsPPScounter := 10 } =
      PPSinterruptISR { hwDirty with gpsPPScounter := 10 } ∧
    applyWrites pcintCloseWrites { hwDirty with gpsPPScounter := 10 } =
      ISR_PCINT1 { hwDirty with gpsPPScounter := 10 } ∧
    ((applyWrites (pcintCloseWrites.take 6)
        { hwDirty with gpsPPScounter := 10, TCCR1B := 7,
                       ppsTriggerEnabled := true }).TCCR1B = 0 ∧
     (applyWrites (pcintCloseWrites.take 6)
        { hwDirty with gpsPPScounter := 10, TCCR1B := 7,
                       ppsTriggerEnabled := true }).ppsTriggerEnabled = false) ∧
    ((runHw .external [.ppsEdge, .calPulse]
        { hwDirty with g_calibration_proceed := true }).TCNT1 =
      ({ hwDirty with g_calibration_proceed := true } : HwState).TCNT1 ∧
     (runHw .external [.ppsEdge, .calPulse]
        { hwDirty with g_calibration_proceed := true }).overflowCounter =
      ({ hwDirty with g_calibration_proceed := true } : HwState).overflowCounter ∧
     runHw .external [.ppsEdge, .calPulse] { hwDirty with g_calibration_proceed := true } =
      { hwDirty with g_calibration_proceed := true }) :=
  ⟨C10_disable_before_proceed.2.2.2.1 4
      { hwDirty with gpsPPScounter := 10, TCCR1B := 7, ppsTriggerEnabled := true }
      (by decide) (by decide),
   C10_disable_before_proceed.2.1 { hwDirty with gpsPPScounter := 10 } (by decide),
   C10_disable_before_proceed.2.2.1 { hwDirty with gpsPPScounter := 10 }
      (by decide) (by decide),
   C10_disable_before_proceed.2.2.2.2.1 6
      { hwDirty with gpsPPScounter := 10, TCCR1B := 7, ppsTriggerEnabled := true }
      (by decide) (by decide),
   C10_disable_before_proceed.2.2.2.2.2 .external [.ppsEdge, .calPulse]
      { hwDirty with g_calibration_proceed := true } (by decide) (by decide) (by decide)⟩

end Orion
